import Mathlib

/-!
Shallow embedding of the WhatsApp webhook ingestion pipeline:
the payload types (src/types/whatsapp.ts), the persistence layer
(src/lib/database.ts over the SQLite schema in the repository's schema
file), and the webhook route handlers (src/routes/webhook.ts).

JavaScript `x || null` falsy coercion is modelled explicitly
(`jsOrNullStr`, `jsOrNullNum`, `jsOrNullInt`); numbers are modelled as
`Rat`; each SQL statement is modelled as a pure transformation of a
`DBState` record, with UNIQUE-constraint violations surfacing as
`DbError.uniqueViolation`.
-/

namespace WhatsappApi

/-! ### Webhook payload types (src/types/whatsapp.ts) -/

structure WebhookContactProfile where
  name : String
deriving Repr, DecidableEq

structure WebhookContact where
  profile : WebhookContactProfile
  wa_id : String
deriving Repr, DecidableEq

structure ErrorData where
  details : String
deriving Repr, DecidableEq

structure WebhookError where
  code : Int
  title : String
  message : String
  error_data : Option ErrorData
deriving Repr, DecidableEq

structure TextContent where
  body : String
deriving Repr, DecidableEq

structure MediaContent where
  id : String
  mime_type : String
  sha256 : Option String
  caption : Option String
deriving Repr, DecidableEq

structure DocumentContent where
  id : String
  mime_type : String
  sha256 : Option String
  caption : Option String
  filename : Option String
deriving Repr, DecidableEq

structure LocationContent where
  latitude : Rat
  longitude : Rat
  name : Option String
  address : Option String
deriving Repr, DecidableEq

structure ContactAddress where
  city : Option String
  country : Option String
  country_code : Option String
  state : Option String
  street : Option String
  type : Option String
  zip : Option String
deriving Repr, DecidableEq

structure ContactEmail where
  email : Option String
  type : Option String
deriving Repr, DecidableEq

structure ContactName where
  formatted_name : String
  first_name : Option String
  last_name : Option String
  middle_name : Option String
  suffix : Option String
  prefix_part : Option String
deriving Repr, DecidableEq

structure ContactOrg where
  company : Option String
  department : Option String
  title : Option String
deriving Repr, DecidableEq

structure ContactPhone where
  phone : Option String
  type : Option String
  wa_id : Option String
deriving Repr, DecidableEq

structure ContactUrl where
  url : Option String
  type : Option String
deriving Repr, DecidableEq

structure ContactContent where
  addresses : Option (List ContactAddress)
  birthday : Option String
  emails : Option (List ContactEmail)
  name : ContactName
  org : Option ContactOrg
  phones : Option (List ContactPhone)
  urls : Option (List ContactUrl)
deriving Repr, DecidableEq

structure ButtonReply where
  id : String
  title : String
deriving Repr, DecidableEq

structure ListReply where
  id : String
  title : String
  description : Option String
deriving Repr, DecidableEq

structure InteractiveResponse where
  type : String
  button_reply : Option ButtonReply
  list_reply : Option ListReply
deriving Repr, DecidableEq

structure ButtonResponse where
  payload : String
  text : String
deriving Repr, DecidableEq

structure MessageContext where
  «from» : String
  id : String
  forwarded : Option Bool
  frequently_forwarded : Option Bool
deriving Repr, DecidableEq

structure Referral where
  source_url : String
  source_type : String
  source_id : String
  headline : Option String
  body : Option String
  media_type : Option String
  image_url : Option String
  video_url : Option String
  thumbnail_url : Option String
deriving Repr, DecidableEq

structure IncomingMessage where
  «from» : String
  id : String
  timestamp : String
  type : String
  text : Option TextContent
  image : Option MediaContent
  video : Option MediaContent
  audio : Option MediaContent
  document : Option DocumentContent
  sticker : Option MediaContent
  location : Option LocationContent
  contacts : Option (List ContactContent)
  interactive : Option InteractiveResponse
  button : Option ButtonResponse
  context : Option MessageContext
  referral : Option Referral
deriving Repr, DecidableEq

structure ConversationOrigin where
  type : String
deriving Repr, DecidableEq

structure Conversation where
  id : String
  origin : ConversationOrigin
  expiration_timestamp : Option String
deriving Repr, DecidableEq

structure Pricing where
  billable : Bool
  pricing_model : String
  category : String
deriving Repr, DecidableEq

structure MessageStatus where
  id : String
  status : String
  timestamp : String
  recipient_id : String
  conversation : Option Conversation
  pricing : Option Pricing
  errors : Option (List WebhookError)
deriving Repr, DecidableEq

structure Metadata where
  display_phone_number : String
  phone_number_id : String
deriving Repr, DecidableEq

structure WebhookValue where
  messaging_product : String
  metadata : Metadata
  contacts : Option (List WebhookContact)
  messages : Option (List IncomingMessage)
  statuses : Option (List MessageStatus)
  errors : Option (List WebhookError)
deriving Repr, DecidableEq

structure WebhookChange where
  value : WebhookValue
  field : String
deriving Repr, DecidableEq

structure WebhookEntry where
  id : String
  changes : List WebhookChange
deriving Repr, DecidableEq

structure WebhookPayload where
  object : String
  entry : List WebhookEntry
deriving Repr, DecidableEq

/-! ### Database row types (src/lib/database.ts record interfaces,
schema columns from the SQL schema file) -/

structure ContactRecord where
  id : Nat
  wa_id : String
  name : Option String
  phone_number : Option String
  first_seen_at : String
  last_message_at : String
  created_at : String
  updated_at : String
deriving Repr, DecidableEq

structure MessageRecord where
  id : Nat
  wa_message_id : String
  contact_id : Nat
  direction : String
  type : String
  content : Option String
  media_id : Option String
  media_url : Option String
  media_mime_type : Option String
  media_filename : Option String
  caption : Option String
  latitude : Option Rat
  longitude : Option Rat
  location_name : Option String
  location_address : Option String
  reply_to_message_id : Option String
  status : String
  timestamp : String
  created_at : String
deriving Repr, DecidableEq

structure MessageStatusRecord where
  id : Nat
  wa_message_id : String
  status : String
  timestamp : String
  error_code : Option Int
  error_message : Option String
  created_at : String
deriving Repr, DecidableEq

structure ConversationRecord where
  id : Nat
  wa_conversation_id : String
  contact_id : Nat
  origin_type : String
  started_at : String
  expires_at : Option String
  created_at : String
deriving Repr, DecidableEq

structure InteractiveResponseRecord where
  id : Nat
  message_id : Nat
  response_type : String
  response_id : String
  response_title : String
  response_description : Option String
  created_at : String
deriving Repr, DecidableEq

/-- The five relations of the schema plus AUTOINCREMENT counters. -/
structure DBState where
  contacts : List ContactRecord
  messages : List MessageRecord
  message_statuses : List MessageStatusRecord
  conversations : List ConversationRecord
  interactive_responses : List InteractiveResponseRecord
  nextContactId : Nat
  nextMessageId : Nat
  nextStatusId : Nat
  nextConversationId : Nat
  nextResponseId : Nat
deriving Repr, DecidableEq

def emptyDB : DBState :=
  { contacts := [], messages := [], message_statuses := [], conversations := [],
    interactive_responses := [], nextContactId := 1, nextMessageId := 1,
    nextStatusId := 1, nextConversationId := 1, nextResponseId := 1 }

/-- Errors a D1 statement can raise; a violated UNIQUE constraint is the
one the modelled statements can hit.  `storeFailure` stands for any other
store-level failure (used only through the abstract `DbOps` interface). -/
inductive DbError where
  | uniqueViolation
  | storeFailure
deriving Repr, DecidableEq

/-! ### JavaScript coercion helpers -/

/-- JS `s || null` on an optional string: `undefined` and `""` are falsy. -/
def jsOrNullStr (o : Option String) : Option String :=
  match o with
  | some s => if s = "" then none else some s
  | none => none

/-- JS `x || null` on an optional number: `undefined` and `0` are falsy. -/
def jsOrNullNum (o : Option Rat) : Option Rat :=
  match o with
  | some x => if x = 0 then none else some x
  | none => none

/-- JS `n || null` on an optional integer: `undefined` and `0` are falsy. -/
def jsOrNullInt (o : Option Int) : Option Int :=
  match o with
  | some n => if n = 0 then none else some n
  | none => none

/-- SQL `COALESCE(a, b)`. -/
def coalesce {α : Type} (a b : Option α) : Option α :=
  match a with
  | some x => some x
  | none => b

/-- Models `new Date(parseInt(ts) * 1000).toISOString()`.  The concrete
rendering of the instant is irrelevant to every stated property, so the
model keeps the epoch-seconds string itself (an injective renaming). -/
def epochToIso (ts : String) : String := ts

/-! ### JSON.stringify model

A concrete JSON rendering of the payload structures, used where the
source calls `JSON.stringify`.  Fields that are `undefined` in JS are
omitted, as `JSON.stringify` does. -/

def jQuote (s : String) : String := "\"" ++ s ++ "\""

def jObj (fields : List (String × String)) : String :=
  "\x7b" ++ String.intercalate "," (fields.map (fun p => jQuote p.1 ++ ":" ++ p.2)) ++ "\x7d"

def jArr (elems : List String) : String :=
  "[" ++ String.intercalate "," elems ++ "]"

def jField (k : String) (v : String) : List (String × String) := [(k, v)]

def jOptField (k : String) (v : Option String) : List (String × String) :=
  match v with
  | some s => [(k, s)]
  | none => []

def jBool (b : Bool) : String := if b then "true" else "false"

def stringifyButtonReply (r : ButtonReply) : String :=
  jObj (jField "id" (jQuote r.id) ++ jField "title" (jQuote r.title))

def stringifyListReply (r : ListReply) : String :=
  jObj (jField "id" (jQuote r.id) ++ jField "title" (jQuote r.title) ++
    jOptField "description" (r.description.map jQuote))

def stringifyContactAddress (a : ContactAddress) : String :=
  jObj (jOptField "city" (a.city.map jQuote) ++ jOptField "country" (a.country.map jQuote) ++
    jOptField "country_code" (a.country_code.map jQuote) ++ jOptField "state" (a.state.map jQuote) ++
    jOptField "street" (a.street.map jQuote) ++ jOptField "type" (a.type.map jQuote) ++
    jOptField "zip" (a.zip.map jQuote))

def stringifyContactEmail (e : ContactEmail) : String :=
  jObj (jOptField "email" (e.email.map jQuote) ++ jOptField "type" (e.type.map jQuote))

def stringifyContactName (n : ContactName) : String :=
  jObj (jField "formatted_name" (jQuote n.formatted_name) ++
    jOptField "first_name" (n.first_name.map jQuote) ++
    jOptField "last_name" (n.last_name.map jQuote) ++
    jOptField "middle_name" (n.middle_name.map jQuote) ++
    jOptField "suffix" (n.suffix.map jQuote) ++
    jOptField "prefix" (n.prefix_part.map jQuote))

def stringifyContactOrg (o : ContactOrg) : String :=
  jObj (jOptField "company" (o.company.map jQuote) ++
    jOptField "department" (o.department.map jQuote) ++ jOptField "title" (o.title.map jQuote))

def stringifyContactPhone (p : ContactPhone) : String :=
  jObj (jOptField "phone" (p.phone.map jQuote) ++ jOptField "type" (p.type.map jQuote) ++
    jOptField "wa_id" (p.wa_id.map jQuote))

def stringifyContactUrl (u : ContactUrl) : String :=
  jObj (jOptField "url" (u.url.map jQuote) ++ jOptField "type" (u.type.map jQuote))

def stringifyContactContent (c : ContactContent) : String :=
  jObj (jOptField "addresses" (c.addresses.map (fun l => jArr (l.map stringifyContactAddress))) ++
    jOptField "birthday" (c.birthday.map jQuote) ++
    jOptField "emails" (c.emails.map (fun l => jArr (l.map stringifyContactEmail))) ++
    jField "name" (stringifyContactName c.name) ++
    jOptField "org" (c.org.map stringifyContactOrg) ++
    jOptField "phones" (c.phones.map (fun l => jArr (l.map stringifyContactPhone))) ++
    jOptField "urls" (c.urls.map (fun l => jArr (l.map stringifyContactUrl))))

def stringifyContacts (cs : List ContactContent) : String :=
  jArr (cs.map stringifyContactContent)

def stringifyTextContent (t : TextContent) : String :=
  jObj (jField "body" (jQuote t.body))

def stringifyMediaContent (m : MediaContent) : String :=
  jObj (jField "id" (jQuote m.id) ++ jField "mime_type" (jQuote m.mime_type) ++
    jOptField "sha256" (m.sha256.map jQuote) ++ jOptField "caption" (m.caption.map jQuote))

def stringifyDocumentContent (d : DocumentContent) : String :=
  jObj (jField "id" (jQuote d.id) ++ jField "mime_type" (jQuote d.mime_type) ++
    jOptField "sha256" (d.sha256.map jQuote) ++ jOptField "caption" (d.caption.map jQuote) ++
    jOptField "filename" (d.filename.map jQuote))

def stringifyLocationContent (l : LocationContent) : String :=
  jObj (jField "latitude" (toString l.latitude) ++ jField "longitude" (toString l.longitude) ++
    jOptField "name" (l.name.map jQuote) ++ jOptField "address" (l.address.map jQuote))

def stringifyInteractiveResponse (i : InteractiveResponse) : String :=
  jObj (jField "type" (jQuote i.type) ++
    jOptField "button_reply" (i.button_reply.map stringifyButtonReply) ++
    jOptField "list_reply" (i.list_reply.map stringifyListReply))

def stringifyButtonResponse (b : ButtonResponse) : String :=
  jObj (jField "payload" (jQuote b.payload) ++ jField "text" (jQuote b.text))

def stringifyMessageContext (c : MessageContext) : String :=
  jObj (jField "from" (jQuote c.«from») ++ jField "id" (jQuote c.id) ++
    jOptField "forwarded" (c.forwarded.map jBool) ++
    jOptField "frequently_forwarded" (c.frequently_forwarded.map jBool))

def stringifyReferral (r : Referral) : String :=
  jObj (jField "source_url" (jQuote r.source_url) ++ jField "source_type" (jQuote r.source_type) ++
    jField "source_id" (jQuote r.source_id) ++ jOptField "headline" (r.headline.map jQuote) ++
    jOptField "body" (r.body.map jQuote) ++ jOptField "media_type" (r.media_type.map jQuote) ++
    jOptField "image_url" (r.image_url.map jQuote) ++
    jOptField "video_url" (r.video_url.map jQuote) ++
    jOptField "thumbnail_url" (r.thumbnail_url.map jQuote))

/-- Models `JSON.stringify(message)`: the serialized snapshot of the whole
inbound record, stored as content for unrecognized kinds. -/
def stringifyIncomingMessage (m : IncomingMessage) : String :=
  jObj (jField "from" (jQuote m.«from») ++ jField "id" (jQuote m.id) ++
    jField "timestamp" (jQuote m.timestamp) ++ jField "type" (jQuote m.type) ++
    jOptField "text" (m.text.map stringifyTextContent) ++
    jOptField "image" (m.image.map stringifyMediaContent) ++
    jOptField "video" (m.video.map stringifyMediaContent) ++
    jOptField "audio" (m.audio.map stringifyMediaContent) ++
    jOptField "document" (m.document.map stringifyDocumentContent) ++
    jOptField "sticker" (m.sticker.map stringifyMediaContent) ++
    jOptField "location" (m.location.map stringifyLocationContent) ++
    jOptField "contacts" (m.contacts.map stringifyContacts) ++
    jOptField "interactive" (m.interactive.map stringifyInteractiveResponse) ++
    jOptField "button" (m.button.map stringifyButtonResponse) ++
    jOptField "context" (m.context.map stringifyMessageContext) ++
    jOptField "referral" (m.referral.map stringifyReferral))

/-! ### DatabaseService (src/lib/database.ts)

Each method takes an extra `now : String` argument standing for the SQL
`datetime(now)` wall-clock, and threads the `DBState` explicitly. -/

/-- Models `SELECT * FROM contacts WHERE wa_id = ?` followed by `.first()`. -/
def selectContact (st : DBState) (waId : String) : Option ContactRecord :=
  st.contacts.find? (fun c => c.wa_id == waId)

/-- Translates `DatabaseService.findOrCreateContact`.  Sequentially this SELECT-then-
INSERT cannot hit the UNIQUE constraint (the interleaved version is
`stepUpsert` below), so the method is total. -/
def findOrCreateContact (waId : String) (name : Option String) (now : String)
    (st : DBState) : ContactRecord × DBState :=
  match selectContact st waId with
  | some existing =>
    -- UPDATE contacts SET name = COALESCE(?, name), last_message_at = datetime(now),
    --   updated_at = datetime(now) WHERE wa_id = ?   -- bound with (name || null, waId)
    let bound := jsOrNullStr name
    let contacts := st.contacts.map (fun c =>
      if c.wa_id == waId then
        { c with name := coalesce bound c.name, last_message_at := now, updated_at := now }
      else c)
    -- return { ...existing, name: name || existing.name }
    ({ existing with name := coalesce bound existing.name }, { st with contacts := contacts })
  | none =>
    -- INSERT INTO contacts (wa_id, name, phone_number) VALUES (?, ?, ?) RETURNING *
    let row : ContactRecord :=
      { id := st.nextContactId, wa_id := waId, name := jsOrNullStr name,
        phone_number := some waId, first_seen_at := now, last_message_at := now,
        created_at := now, updated_at := now }
    (row, { st with contacts := st.contacts ++ [row], nextContactId := st.nextContactId + 1 })

/-- The nine content-extraction locals of `saveIncomingMessage`. -/
structure ExtractedContent where
  content : Option String
  mediaId : Option String
  mediaMimeType : Option String
  mediaFilename : Option String
  caption : Option String
  latitude : Option Rat
  longitude : Option Rat
  locationName : Option String
  locationAddress : Option String
deriving Repr, DecidableEq

def emptyContent : ExtractedContent :=
  { content := none, mediaId := none, mediaMimeType := none, mediaFilename := none,
    caption := none, latitude := none, longitude := none, locationName := none,
    locationAddress := none }

/-- The `switch (message.type)` of `saveIncomingMessage`. -/
def extractContent (message : IncomingMessage) : ExtractedContent :=
  match message.type with
  | "text" =>
    { emptyContent with content := jsOrNullStr (message.text.map TextContent.body) }
  | "image" =>
    { emptyContent with
      mediaId := jsOrNullStr (message.image.map MediaContent.id),
      mediaMimeType := jsOrNullStr (message.image.map MediaContent.mime_type),
      caption := jsOrNullStr (message.image.bind MediaContent.caption) }
  | "video" =>
    { emptyContent with
      mediaId := jsOrNullStr (message.video.map MediaContent.id),
      mediaMimeType := jsOrNullStr (message.video.map MediaContent.mime_type),
      caption := jsOrNullStr (message.video.bind MediaContent.caption) }
  | "audio" =>
    { emptyContent with
      mediaId := jsOrNullStr (message.audio.map MediaContent.id),
      mediaMimeType := jsOrNullStr (message.audio.map MediaContent.mime_type) }
  | "document" =>
    { emptyContent with
      mediaId := jsOrNullStr (message.document.map DocumentContent.id),
      mediaMimeType := jsOrNullStr (message.document.map DocumentContent.mime_type),
      mediaFilename := jsOrNullStr (message.document.bind DocumentContent.filename),
      caption := jsOrNullStr (message.document.bind DocumentContent.caption) }
  | "sticker" =>
    { emptyContent with
      mediaId := jsOrNullStr (message.sticker.map MediaContent.id),
      mediaMimeType := jsOrNullStr (message.sticker.map MediaContent.mime_type) }
  | "location" =>
    { emptyContent with
      latitude := jsOrNullNum (message.location.map LocationContent.latitude),
      longitude := jsOrNullNum (message.location.map LocationContent.longitude),
      locationName := jsOrNullStr (message.location.bind LocationContent.name),
      locationAddress := jsOrNullStr (message.location.bind LocationContent.address) }
  | "interactive" =>
    match message.interactive with
    | some i =>
      if i.type == "button_reply" then
        { emptyContent with content := i.button_reply.map stringifyButtonReply }
      else if i.type == "list_reply" then
        { emptyContent with content := i.list_reply.map stringifyListReply }
      else emptyContent
    | none => emptyContent
  | "button" =>
    { emptyContent with content := jsOrNullStr (message.button.map ButtonResponse.text) }
  | "contacts" =>
    { emptyContent with content := message.contacts.map stringifyContacts }
  | _ =>
    { emptyContent with content := some (stringifyIncomingMessage message) }

/-- The `INSERT INTO interactive_responses` step at the end of
`saveIncomingMessage`, run only when the message is interactive and the
primary insert succeeded. -/
def insertInteractiveResponse (message : IncomingMessage) (messageRowId : Nat)
    (now : String) (st : DBState) : DBState :=
  if message.type == "interactive" then
    match message.interactive with
    | some i =>
      let response : Option (String × String × Option String) :=
        if i.type == "button_reply" then
          i.button_reply.map (fun b => (b.id, b.title, none))
        else
          i.list_reply.map (fun l => (l.id, l.title, l.description))
      match response with
      | some (rid, rtitle, rdesc) =>
        let rrow : InteractiveResponseRecord :=
          { id := st.nextResponseId, message_id := messageRowId, response_type := i.type,
            response_id := rid, response_title := rtitle, response_description := rdesc,
            created_at := now }
        { st with interactive_responses := st.interactive_responses ++ [rrow],
                  nextResponseId := st.nextResponseId + 1 }
      | none => st
    | none => st
  else st

/-- Translates `DatabaseService.saveIncomingMessage`.  The contact upsert commits
before the message INSERT, so on a duplicate `wa_message_id` the UNIQUE
constraint aborts only the message insert: the error is returned together
with the state as already mutated by the contact step. -/
def saveIncomingMessage (message : IncomingMessage) (contact : Option WebhookContact)
    (now : String) (st : DBState) : Except DbError MessageRecord × DBState :=
  let found := findOrCreateContact message.«from» (contact.map (fun c => c.profile.name)) now st
  let contactRecord := found.1
  let st1 := found.2
  let e := extractContent message
  let timestamp := epochToIso message.timestamp
  -- INSERT INTO messages (...) VALUES (?, ?, incoming, ..., received, ?) RETURNING *
  if st1.messages.any (fun m => m.wa_message_id == message.id) then
    (Except.error DbError.uniqueViolation, st1)
  else
    let row : MessageRecord :=
      { id := st1.nextMessageId, wa_message_id := message.id,
        contact_id := contactRecord.id, direction := "incoming", type := message.type,
        content := e.content, media_id := e.mediaId, media_url := none,
        media_mime_type := e.mediaMimeType, media_filename := e.mediaFilename,
        caption := e.caption, latitude := e.latitude, longitude := e.longitude,
        location_name := e.locationName, location_address := e.locationAddress,
        reply_to_message_id := jsOrNullStr (message.context.map MessageContext.id),
        status := "received", timestamp := timestamp, created_at := now }
    let st2 := { st1 with messages := st1.messages ++ [row],
                          nextMessageId := st1.nextMessageId + 1 }
    (Except.ok row, insertInteractiveResponse message row.id now st2)

/-- Models `UPDATE messages SET status = ? WHERE wa_message_id = ?` applied to
one row. -/
def setStatus (waMessageId statusValue : String) (m : MessageRecord) : MessageRecord :=
  if m.wa_message_id == waMessageId then { m with status := statusValue } else m

/-- The status-history row appended by `updateMessageStatus`. -/
def statusRowOf (status : MessageStatus) (now : String) (rowId : Nat) : MessageStatusRecord :=
  { id := rowId, wa_message_id := status.id, status := status.status,
    timestamp := epochToIso status.timestamp,
    error_code := jsOrNullInt ((status.errors.bind List.head?).map WebhookError.code),
    error_message := jsOrNullStr ((status.errors.bind List.head?).map WebhookError.message),
    created_at := now }

/-- Models `SELECT c.id FROM contacts c JOIN messages m ON m.contact_id = c.id
WHERE m.wa_message_id = ?` followed by `.first()`. -/
def conversationContact (st : DBState) (waMessageId : String) : Option ContactRecord :=
  (st.messages.find? (fun m => m.wa_message_id == waMessageId)).bind
    (fun m => st.contacts.find? (fun c => c.id == m.contact_id))

/-- The conversation-window row inserted by `updateMessageStatus`. -/
def conversationRowOf (conv : Conversation) (c : ContactRecord) (now : String)
    (rowId : Nat) : ConversationRecord :=
  { id := rowId, wa_conversation_id := conv.id, contact_id := c.id,
    origin_type := conv.origin.type, started_at := now,
    expires_at := jsOrNullStr conv.expiration_timestamp, created_at := now }

/-- The `if (status.conversation)` tail of `updateMessageStatus`:
`INSERT OR IGNORE INTO conversations ...`, skipped when the owning
contact cannot be resolved through the referenced message. -/
def insertConversationIfPresent (status : MessageStatus) (now : String)
    (st : DBState) : DBState :=
  match status.conversation with
  | some conv =>
    match conversationContact st status.id with
    | some c =>
      if st.conversations.any (fun v => v.wa_conversation_id == conv.id) then st
      else
        { st with
          conversations := st.conversations ++ [conversationRowOf conv c now st.nextConversationId],
          nextConversationId := st.nextConversationId + 1 }
    | none => st
  | none => st

/-- The first two statements of `updateMessageStatus`: the status
UPDATE over the messages table followed by the history INSERT. -/
def statusUpdateCore (status : MessageStatus) (now : String) (st : DBState) : DBState :=
  { st with
    messages := st.messages.map (setStatus status.id status.status),
    message_statuses := st.message_statuses ++ [statusRowOf status now st.nextStatusId],
    nextStatusId := st.nextStatusId + 1 }

/-- Translates `DatabaseService.updateMessageStatus`: overwrite the status of any
matching message row, always append one history row, then derive the
conversation window.  None of the three statements can fail, so the
method is total. -/
def updateMessageStatus (status : MessageStatus) (now : String) (st : DBState) : DBState :=
  insertConversationIfPresent status now (statusUpdateCore status now st)

/-! ### Webhook route (src/routes/webhook.ts)

The route handlers are parametric in the store operations, so the
acknowledgment theorems quantify over every possible persistence outcome
(including arbitrary store failures).  Every D1 call in the source
commits statement-by-statement, so a failing operation still returns the
state as mutated before the throw: each operation yields `result × state`. -/

structure DbOps (St : Type) where
  saveIncomingMessage : IncomingMessage → Option WebhookContact → St → Except DbError MessageRecord × St
  updateMessageStatus : MessageStatus → St → Except DbError Unit × St

/-- The concrete `DatabaseService` instance over `DBState`. -/
def d1Ops (now : String) : DbOps DBState where
  saveIncomingMessage := fun m c st => saveIncomingMessage m c now st
  updateMessageStatus := fun s st => (Except.ok (), updateMessageStatus s now st)

/-- Translates `handleIncomingMessage`: resolve the profile contact for the sender,
save, and swallow any store error (the source wraps the save in
try/catch and only logs). -/
def handleIncomingMessage {St : Type} (db : DbOps St) (message : IncomingMessage)
    (webhookValue : WebhookValue) (st : St) : St :=
  let contact := webhookValue.contacts.bind (fun cs => cs.find? (fun c => c.wa_id == message.«from»))
  (db.saveIncomingMessage message contact st).2

/-- Translates `handleStatusUpdate`: apply the status, swallowing any store error. -/
def handleStatusUpdate {St : Type} (db : DbOps St) (status : MessageStatus) (st : St) : St :=
  (db.updateMessageStatus status st).2

/-- Translates `processMessagesChange`: all messages in order, then all statuses in
order (error entries are only logged and do not touch the store). -/
def processMessagesChange {St : Type} (db : DbOps St) (value : WebhookValue) (st : St) : St :=
  let st1 := (value.messages.getD []).foldl (fun s m => handleIncomingMessage db m value s) st
  (value.statuses.getD []).foldl (fun s u => handleStatusUpdate db u s) st1

/-- The webhook POST handler: HTTP status code × resulting store
state.  A payload whose top-level object tag is wrong is rejected with
400 before any processing; otherwise every entry and every
every messages-field change is processed and 200 OK is returned
(the top-level catch also answers 200, but no modelled operation
escapes the per-item catches). -/
def webhookPost {St : Type} (db : DbOps St) (payload : WebhookPayload) (st : St) : Nat × St :=
  if payload.object ≠ "whatsapp_business_account" then (400, st)
  else
    (200, payload.entry.foldl (fun s entry =>
      entry.changes.foldl (fun t change =>
        if change.field == "messages" then processMessagesChange db change.value t else t) s) st)

/-- One batch item fanned out of a webhook value, in arrival order. -/
inductive ChangeItem where
  | msg (value : WebhookValue) (m : IncomingMessage)
  | stat (s : MessageStatus)

/-- The items of one `messages`-field change, messages before statuses,
each sub-sequence in arrival order. -/
def itemsOfValue (value : WebhookValue) : List ChangeItem :=
  (value.messages.getD []).map (ChangeItem.msg value) ++
    (value.statuses.getD []).map ChangeItem.stat

/-- All items of the whole notification, in the order the nested
entry/change loops visit them. -/
def itemsOfPayload (payload : WebhookPayload) : List ChangeItem :=
  (payload.entry.map (fun entry =>
    (entry.changes.map (fun change =>
      if change.field == "messages" then itemsOfValue change.value else [])).flatten)).flatten

/-- Processing one batch item, swallowing its persistence failure. -/
def stepItem {St : Type} (db : DbOps St) (st : St) (item : ChangeItem) : St :=
  match item with
  | ChangeItem.msg value m => handleIncomingMessage db m value st
  | ChangeItem.stat s => handleStatusUpdate db s st

/-! ### Interleaved contact upserts (§5 concurrency model)

`findOrCreateContact` is a SELECT followed by an UPDATE or INSERT, with
an `await` between them; two webhook calls may interleave at that point.
Each in-flight call is a small state machine over the shared `DBState`;
the INSERT step enforces the schema's `wa_id UNIQUE` constraint. -/

inductive UpsertPhase where
  | ready
  | selected (found : Option ContactRecord)
  | finished (result : Except DbError ContactRecord)
deriving Repr

/-- One scheduler step of an in-flight `findOrCreateContact waId name`. -/
def stepUpsert (waId : String) (name : Option String) (now : String) :
    UpsertPhase × DBState → UpsertPhase × DBState
  | (UpsertPhase.ready, st) => (UpsertPhase.selected (selectContact st waId), st)
  | (UpsertPhase.selected (some existing), st) =>
    let bound := jsOrNullStr name
    let contacts := st.contacts.map (fun c =>
      if c.wa_id == waId then
        { c with name := coalesce bound c.name, last_message_at := now, updated_at := now }
      else c)
    (UpsertPhase.finished (Except.ok { existing with name := coalesce bound existing.name }),
      { st with contacts := contacts })
  | (UpsertPhase.selected none, st) =>
    if st.contacts.any (fun c => c.wa_id == waId) then
      -- the INSERT hits the wa_id UNIQUE constraint
      (UpsertPhase.finished (Except.error DbError.uniqueViolation), st)
    else
      let row : ContactRecord :=
        { id := st.nextContactId, wa_id := waId, name := jsOrNullStr name,
          phone_number := some waId, first_seen_at := now, last_message_at := now,
          created_at := now, updated_at := now }
      (UpsertPhase.finished (Except.ok row),
        { st with contacts := st.contacts ++ [row], nextContactId := st.nextContactId + 1 })
  | (UpsertPhase.finished r, st) => (UpsertPhase.finished r, st)

/-- Run two interleaved upserts A and B under a schedule (`true` steps A,
`false` steps B). -/
def runSchedule (waId : String) (nameA nameB : Option String) (now : String) :
    List Bool → UpsertPhase × UpsertPhase × DBState → UpsertPhase × UpsertPhase × DBState
  | [], s => s
  | true :: rest, (pA, pB, st) =>
    let r := stepUpsert waId nameA now (pA, st)
    runSchedule waId nameA nameB now rest (r.1, pB, r.2)
  | false :: rest, (pA, pB, st) =>
    let r := stepUpsert waId nameB now (pB, st)
    runSchedule waId nameA nameB now rest (pA, r.1, r.2)

/-- Applying a sequence of status events in order (the per-item loop of
`processMessagesChange` restricted to statuses, without the per-item
catch, which `updateMessageStatus` never triggers). -/
def applyStatuses (events : List MessageStatus) (now : String) (st : DBState) : DBState :=
  events.foldl (fun s ev => updateMessageStatus ev now s) st

/-! ### Concrete example inputs for witnesses and counterexamples -/

def exMsgText : IncomingMessage :=
  { «from» := "1555", id := "wamid.A", timestamp := "1700000000", type := "text",
    text := some { body := "hi" }, image := none, video := none, audio := none,
    document := none, sticker := none, location := none, contacts := none,
    interactive := none, button := none, context := none, referral := none }

def exMsgText2 : IncomingMessage :=
  { exMsgText with text := some { body := "bye" } }

def exMsgReaction : IncomingMessage :=
  { «from» := "1555", id := "wamid.R", timestamp := "1700000002", type := "reaction",
    text := none, image := none, video := none, audio := none,
    document := none, sticker := none, location := none, contacts := none,
    interactive := none, button := none, context := none, referral := none }

def exMsgLocation : IncomingMessage :=
  { «from» := "1555", id := "wamid.L", timestamp := "1700000003", type := "location",
    text := none, image := none, video := none, audio := none,
    document := none, sticker := none,
    location := some { latitude := 0, longitude := 2, name := none, address := none },
    contacts := none, interactive := none, button := none, context := none, referral := none }

def exStatusDelivered : MessageStatus :=
  { id := "wamid.A", status := "delivered", timestamp := "1700000010",
    recipient_id := "1555",
    conversation := some { id := "conv1", origin := { type := "user_initiated" },
                           expiration_timestamp := none },
    pricing := none, errors := none }

def exStatusRead : MessageStatus :=
  { exStatusDelivered with status := "read", timestamp := "1700000020" }

def exStatusUnknown : MessageStatus :=
  { id := "wamid.ZZZ", status := "delivered", timestamp := "1700000030",
    recipient_id := "1999", conversation := none, pricing := none, errors := none }

/-- Store state after ingesting `exMsgText` into an empty store. -/
def exDB1 : DBState := (saveIncomingMessage exMsgText none "t0" emptyDB).2

def exValueGood : WebhookValue :=
  { messaging_product := "whatsapp",
    metadata := { display_phone_number := "1000", phone_number_id := "pn1" },
    contacts := none, messages := some [exMsgText, exMsgText2],
    statuses := some [exStatusUnknown], errors := none }

def exPayloadGood : WebhookPayload :=
  { object := "whatsapp_business_account",
    entry := [{ id := "e1", changes := [{ value := exValueGood, field := "messages" }] }] }

def exPayloadBad : WebhookPayload :=
  { exPayloadGood with object := "whatsapp_business_page" }

/-- A store whose every operation fails (store unavailability). -/
def failingOps : DbOps Unit where
  saveIncomingMessage := fun _ _ st => (Except.error DbError.storeFailure, st)
  updateMessageStatus := fun _ st => (Except.error DbError.storeFailure, st)

/-! ### Structural lemmas about the persistence operations -/

theorem findOrCreateContact_messages (waId : String) (name : Option String) (now : String)
    (st : DBState) : (findOrCreateContact waId name now st).2.messages = st.messages := by
  unfold findOrCreateContact
  cases selectContact st waId <;> rfl

theorem setStatus_wa_message_id (sid v : String) (m : MessageRecord) :
    (setStatus sid v m).wa_message_id = m.wa_message_id := by
  unfold setStatus; split <;> rfl

theorem setStatus_contact_id (sid v : String) (m : MessageRecord) :
    (setStatus sid v m).contact_id = m.contact_id := by
  unfold setStatus; split <;> rfl

theorem map_setStatus_of_no_match (sid v : String) (l : List MessageRecord)
    (h : ∀ m ∈ l, m.wa_message_id ≠ sid) : l.map (setStatus sid v) = l := by
  induction l with
  | nil => rfl
  | cons m rest ih =>
    have hm : m.wa_message_id ≠ sid := h m (List.mem_cons_self m rest)
    have : setStatus sid v m = m := by
      unfold setStatus
      rw [if_neg]
      simpa using hm
    simp only [List.map_cons, this, ih (fun x hx => h x (List.mem_cons_of_mem m hx))]

theorem find?_map_setStatus (sid v w : String) (l : List MessageRecord) :
    (l.map (setStatus sid v)).find? (fun m => m.wa_message_id == w) =
      (l.find? (fun m => m.wa_message_id == w)).map (setStatus sid v) := by
  induction l with
  | nil => rfl
  | cons m rest ih =>
    simp only [List.map_cons, List.find?]
    rw [setStatus_wa_message_id]
    cases h : (m.wa_message_id == w) with
    | true => rfl
    | false => simpa using ih

theorem insertConversationIfPresent_messages (s : MessageStatus) (now : String) (st : DBState) :
    (insertConversationIfPresent s now st).messages = st.messages := by
  unfold insertConversationIfPresent
  cases s.conversation with
  | none => rfl
  | some conv =>
    cases conversationContact st s.id with
    | none => rfl
    | some c => dsimp only; split <;> rfl

theorem insertConversationIfPresent_contacts (s : MessageStatus) (now : String) (st : DBState) :
    (insertConversationIfPresent s now st).contacts = st.contacts := by
  unfold insertConversationIfPresent
  cases s.conversation with
  | none => rfl
  | some conv =>
    cases conversationContact st s.id with
    | none => rfl
    | some c => dsimp only; split <;> rfl

theorem insertConversationIfPresent_statuses (s : MessageStatus) (now : String) (st : DBState) :
    (insertConversationIfPresent s now st).message_statuses = st.message_statuses := by
  unfold insertConversationIfPresent
  cases s.conversation with
  | none => rfl
  | some conv =>
    cases conversationContact st s.id with
    | none => rfl
    | some c => dsimp only; split <;> rfl

theorem updateMessageStatus_messages (s : MessageStatus) (now : String) (st : DBState) :
    (updateMessageStatus s now st).messages = st.messages.map (setStatus s.id s.status) := by
  unfold updateMessageStatus
  rw [insertConversationIfPresent_messages]
  rfl

theorem updateMessageStatus_contacts (s : MessageStatus) (now : String) (st : DBState) :
    (updateMessageStatus s now st).contacts = st.contacts := by
  unfold updateMessageStatus
  rw [insertConversationIfPresent_contacts]
  rfl

theorem updateMessageStatus_statuses (s : MessageStatus) (now : String) (st : DBState) :
    (updateMessageStatus s now st).message_statuses =
      st.message_statuses ++ [statusRowOf s now st.nextStatusId] := by
  unfold updateMessageStatus
  rw [insertConversationIfPresent_statuses]
  rfl

/-- Lemma: `conversationContact` only reads messages (through their identifiers
and contact links, which `setStatus` preserves) and contacts. -/
theorem conversationContact_congr (st st' : DBState) (sid v : String)
    (h1 : st'.messages = st.messages.map (setStatus sid v)) (h2 : st'.contacts = st.contacts)
    (w : String) : conversationContact st' w = conversationContact st w := by
  unfold conversationContact
  rw [h1, h2, find?_map_setStatus]
  cases st.messages.find? (fun m => m.wa_message_id == w) with
  | none => rfl
  | some m => simp only [Option.map_some', Option.some_bind, setStatus_contact_id]

theorem conversationContact_updateMessageStatus (s : MessageStatus) (now : String)
    (st : DBState) (w : String) :
    conversationContact (updateMessageStatus s now st) w = conversationContact st w := by
  exact conversationContact_congr st _ s.id s.status
    (updateMessageStatus_messages s now st) (updateMessageStatus_contacts s now st) w

theorem conversationContact_statusUpdateCore (s : MessageStatus) (now : String)
    (st : DBState) (w : String) :
    conversationContact (statusUpdateCore s now st) w = conversationContact st w :=
  conversationContact_congr st (statusUpdateCore s now st) s.id s.status rfl rfl w

theorem statusUpdateCore_conversations (s : MessageStatus) (now : String) (st : DBState) :
    (statusUpdateCore s now st).conversations = st.conversations := rfl

theorem statusUpdateCore_nextConversationId (s : MessageStatus) (now : String) (st : DBState) :
    (statusUpdateCore s now st).nextConversationId = st.nextConversationId := rfl

/-- Full characterization of the conversations table after one
`updateMessageStatus` call, in terms of the pre-call state. -/
theorem updateMessageStatus_conversations (s : MessageStatus) (now : String) (st : DBState) :
    (updateMessageStatus s now st).conversations =
      match s.conversation with
      | some conv =>
        match conversationContact st s.id with
        | some c =>
          if st.conversations.any (fun v => v.wa_conversation_id == conv.id) then
            st.conversations
          else
            st.conversations ++ [conversationRowOf conv c now st.nextConversationId]
        | none => st.conversations
      | none => st.conversations := by
  unfold updateMessageStatus insertConversationIfPresent
  rw [conversationContact_statusUpdateCore]
  cases s.conversation with
  | none => rfl
  | some conv =>
    cases conversationContact st s.id with
    | none => rfl
    | some c =>
      simp only [statusUpdateCore_conversations, statusUpdateCore_nextConversationId]
      split <;> rfl

/-! ### Claim theorems -/

/-- C2: a status event whose external message id matches no stored
message raises no error (`updateMessageStatus` is total), changes zero
message rows, appends exactly one status-history row keyed by that id,
and leaves the conversations table untouched. -/
theorem updateMessageStatus_unknown_id (status : MessageStatus) (now : String) (st : DBState)
    (h : ∀ m ∈ st.messages, m.wa_message_id ≠ status.id) :
    (updateMessageStatus status now st).messages = st.messages ∧
    (updateMessageStatus status now st).message_statuses =
      st.message_statuses ++ [statusRowOf status now st.nextStatusId] ∧
    (updateMessageStatus status now st).conversations = st.conversations := by
  have hfind : st.messages.find? (fun m => m.wa_message_id == status.id) = none := by
    rw [List.find?_eq_none]
    intro m hm
    simpa using h m hm
  refine ⟨?_, updateMessageStatus_statuses status now st, ?_⟩
  · rw [updateMessageStatus_messages, map_setStatus_of_no_match _ _ _ h]
  · rw [updateMessageStatus_conversations]
    cases status.conversation with
    | none => rfl
    | some conv =>
      unfold conversationContact
      rw [hfind]
      rfl

/-- C2 witness: the unknown-id status event of Scenario D applied to the
store holding only Scenario A's message. -/
theorem updateMessageStatus_unknown_id_witness :
    (∀ m ∈ exDB1.messages, m.wa_message_id ≠ exStatusUnknown.id) ∧
    ((updateMessageStatus exStatusUnknown "t5" exDB1).messages = exDB1.messages ∧
     (updateMessageStatus exStatusUnknown "t5" exDB1).message_statuses =
       exDB1.message_statuses ++ [statusRowOf exStatusUnknown "t5" exDB1.nextStatusId] ∧
     (updateMessageStatus exStatusUnknown "t5" exDB1).conversations = exDB1.conversations) :=
  ⟨by decide, updateMessageStatus_unknown_id exStatusUnknown "t5" exDB1 (by decide)⟩

/-- C5: upserting an existing contact replaces the stored name only when
the supplied name is non-empty; an absent or empty name refreshes
`last_message_at` (and `updated_at`) but never erases a previously
learned name. -/
theorem findOrCreateContact_name_policy (waId : String) (name : Option String) (now : String)
    (st : DBState) (c : ContactRecord) (hfind : selectContact st waId = some c) :
    (jsOrNullStr name = none →
      (findOrCreateContact waId name now st).1.name = c.name ∧
      (findOrCreateContact waId name now st).2.contacts =
        st.contacts.map (fun x => if x.wa_id == waId then
          { x with last_message_at := now, updated_at := now } else x)) ∧
    (∀ n, name = some n → n ≠ "" →
      (findOrCreateContact waId name now st).2.contacts =
        st.contacts.map (fun x => if x.wa_id == waId then
          { x with name := some n, last_message_at := now, updated_at := now } else x)) := by
  constructor
  · intro hnone
    simp only [findOrCreateContact, hfind, hnone]
    exact ⟨rfl, rfl⟩
  · intro n hn hne
    have hsome : jsOrNullStr name = some n := by
      rw [hn]; simp [jsOrNullStr, hne]
    simp only [findOrCreateContact, hfind, hsome]
    rfl

/-- C5 witness: a nameless upsert against the contact learned from
Scenario A keeps its name and bumps `last_message_at`; a non-empty-name
upsert overwrites the name. -/
theorem findOrCreateContact_name_policy_witness :
    (selectContact exDB1 "1555" = some ((findOrCreateContact "1555" none "t0" emptyDB).1)) ∧
    ((jsOrNullStr none = none →
      (findOrCreateContact "1555" none "t9" exDB1).1.name =
        ((findOrCreateContact "1555" none "t0" emptyDB).1).name ∧
      (findOrCreateContact "1555" none "t9" exDB1).2.contacts =
        exDB1.contacts.map (fun x => if x.wa_id == "1555" then
          { x with last_message_at := "t9", updated_at := "t9" } else x)) ∧
    (∀ n, (none : Option String) = some n → n ≠ "" →
      (findOrCreateContact "1555" none "t9" exDB1).2.contacts =
        exDB1.contacts.map (fun x => if x.wa_id == "1555" then
          { x with name := some n, last_message_at := "t9", updated_at := "t9" } else x))) :=
  ⟨by decide, findOrCreateContact_name_policy "1555" none "t9" exDB1 _ (by decide)⟩

/-- C1 counterexample: re-ingesting Scenario A's message (same external
id `wamid.A`) does NOT return the existing row without error — the plain
INSERT hits the `wa_message_id` UNIQUE constraint and the call fails,
though the table still holds exactly one row for that id. -/
theorem saveIncomingMessage_duplicate_not_noop :
    (saveIncomingMessage exMsgText none "t1" exDB1).1 =
      Except.error DbError.uniqueViolation ∧
    (saveIncomingMessage exMsgText none "t1" exDB1).2.messages.length = 1 :=
  ⟨rfl, rfl⟩

/-- C1 (amended): calling `saveIncomingMessage` again with an external
message id that already identifies a stored row leaves the message table
with exactly one row for that id and creates no second row, but the call
is not an error-free no-op returning the existing row: the INSERT
violates the `wa_message_id` UNIQUE constraint and the call returns a
store error (which the webhook layer catches and logs). -/
theorem saveIncomingMessage_duplicate_id (message : IncomingMessage)
    (contact : Option WebhookContact) (now : String) (st : DBState)
    (h : st.messages.countP (fun m => m.wa_message_id == message.id) = 1) :
    (saveIncomingMessage message contact now st).1 = Except.error DbError.uniqueViolation ∧
    (saveIncomingMessage message contact now st).2.messages = st.messages ∧
    (saveIncomingMessage message contact now st).2.messages.countP
      (fun m => m.wa_message_id == message.id) = 1 := by
  have hany : ((findOrCreateContact message.«from» (contact.map (fun c => c.profile.name))
      now st).2.messages.any (fun m => m.wa_message_id == message.id)) = true := by
    rw [findOrCreateContact_messages, List.any_eq_true]
    have hpos : 0 < st.messages.countP (fun m => m.wa_message_id == message.id) := by omega
    exact List.countP_pos_iff.mp hpos
  simp only [saveIncomingMessage, hany, if_true]
  refine ⟨trivial, ?_, ?_⟩
  · exact findOrCreateContact_messages _ _ _ _
  · rw [findOrCreateContact_messages]; exact h

/-- C1 witness: the amended duplicate-insert behaviour at Scenario A's
message against the store already holding it. -/
theorem saveIncomingMessage_duplicate_id_witness :
    (exDB1.messages.countP (fun m => m.wa_message_id == exMsgText.id) = 1) ∧
    ((saveIncomingMessage exMsgText none "t2" exDB1).1 =
        Except.error DbError.uniqueViolation ∧
     (saveIncomingMessage exMsgText none "t2" exDB1).2.messages = exDB1.messages ∧
     (saveIncomingMessage exMsgText none "t2" exDB1).2.messages.countP
        (fun m => m.wa_message_id == exMsgText.id) = 1) :=
  ⟨by decide, saveIncomingMessage_duplicate_id exMsgText none "t2" exDB1 (by decide)⟩

theorem insertInteractiveResponse_messages (message : IncomingMessage) (rowId : Nat)
    (now : String) (st : DBState) :
    (insertInteractiveResponse message rowId now st).messages = st.messages := by
  unfold insertInteractiveResponse
  split
  · cases message.interactive with
    | none => rfl
    | some i => dsimp only; split <;> rfl
  · rfl

/-- C10: for a location message, a coordinate that is exactly `0` is
stored as null (JS `|| null` falsy coercion erases the equator / prime
meridian), while a nonzero coordinate is stored equal to the payload
value. -/
theorem saveIncomingMessage_location_zero (message : IncomingMessage)
    (contact : Option WebhookContact) (now : String) (st : DBState) (loc : LocationContent)
    (htype : message.type = "location") (hloc : message.location = some loc)
    (hdup : st.messages.any (fun m => m.wa_message_id == message.id) = false) :
    ∃ row : MessageRecord,
      (saveIncomingMessage message contact now st).1 = Except.ok row ∧
      (saveIncomingMessage message contact now st).2.messages = st.messages ++ [row] ∧
      row.latitude = (if loc.latitude = 0 then none else some loc.latitude) ∧
      row.longitude = (if loc.longitude = 0 then none else some loc.longitude) := by
  have hmsgs := findOrCreateContact_messages message.«from»
    (contact.map (fun c => c.profile.name)) now st
  have he : extractContent message =
      { emptyContent with
        latitude := jsOrNullNum (message.location.map LocationContent.latitude),
        longitude := jsOrNullNum (message.location.map LocationContent.longitude),
        locationName := jsOrNullStr (message.location.bind LocationContent.name),
        locationAddress := jsOrNullStr (message.location.bind LocationContent.address) } := by
    unfold extractContent
    rw [htype]
    rfl
  have hni : (message.type == "interactive") = false := by
    rw [htype]; rfl
  have hcond : ((findOrCreateContact message.«from» (contact.map (fun c => c.profile.name))
      now st).2.messages.any (fun m => m.wa_message_id == message.id)) = false := by
    rw [hmsgs]; exact hdup
  simp only [saveIncomingMessage, hcond, if_false, Bool.false_eq_true]
  refine ⟨_, rfl, ?_, ?_, ?_⟩
  · rw [insertInteractiveResponse_messages]
    dsimp only
    rw [hmsgs]
  · dsimp only
    rw [he]
    dsimp only
    rw [hloc]
    rfl
  · dsimp only
    rw [he]
    dsimp only
    rw [hloc]
    rfl

/-- C10 witness: a location message at latitude 0, longitude 2 — the
valid zero latitude is erased to null, the nonzero longitude kept. -/
theorem saveIncomingMessage_location_zero_witness :
    (exMsgLocation.type = "location" ∧
     exMsgLocation.location =
       some { latitude := 0, longitude := 2, name := none, address := none } ∧
     emptyDB.messages.any (fun m => m.wa_message_id == exMsgLocation.id) = false) ∧
    (∃ row : MessageRecord,
      (saveIncomingMessage exMsgLocation none "t4" emptyDB).1 = Except.ok row ∧
      (saveIncomingMessage exMsgLocation none "t4" emptyDB).2.messages =
        emptyDB.messages ++ [row] ∧
      row.latitude = (if (0 : Rat) = 0 then none else some 0) ∧
      row.longitude = (if (2 : Rat) = 0 then none else some 2)) :=
  ⟨⟨rfl, rfl, rfl⟩,
    saveIncomingMessage_location_zero exMsgLocation none "t4" emptyDB _ rfl rfl rfl⟩

/-- C9: an inbound message whose kind tag is none of the explicitly
handled kinds is still stored, keeping its original kind tag and, as its
content, the serialized snapshot of the whole inbound record. -/
theorem saveIncomingMessage_unknown_kind (message : IncomingMessage)
    (contact : Option WebhookContact) (now : String) (st : DBState)
    (htype : message.type ∉ (["text", "image", "video", "audio", "document", "sticker",
      "location", "interactive", "button", "contacts"] : List String))
    (hdup : st.messages.any (fun m => m.wa_message_id == message.id) = false) :
    ∃ row : MessageRecord,
      (saveIncomingMessage message contact now st).1 = Except.ok row ∧
      (saveIncomingMessage message contact now st).2.messages = st.messages ++ [row] ∧
      row.type = message.type ∧
      row.content = some (stringifyIncomingMessage message) := by
  have hmsgs := findOrCreateContact_messages message.«from»
    (contact.map (fun c => c.profile.name)) now st
  have he : extractContent message =
      { emptyContent with content := some (stringifyIncomingMessage message) } := by
    unfold extractContent
    split
    all_goals simp_all
  have hcond : ((findOrCreateContact message.«from» (contact.map (fun c => c.profile.name))
      now st).2.messages.any (fun m => m.wa_message_id == message.id)) = false := by
    rw [hmsgs]; exact hdup
  simp only [saveIncomingMessage, hcond, if_false, Bool.false_eq_true]
  refine ⟨_, rfl, ?_, rfl, ?_⟩
  · rw [insertInteractiveResponse_messages]
    dsimp only
    rw [hmsgs]
  · dsimp only
    rw [he]

/-- C9 witness: a `reaction`-kind message (not among the handled kinds)
is stored with kind tag `reaction` and the serialized record as content. -/
theorem saveIncomingMessage_unknown_kind_witness :
    (exMsgReaction.type ∉ (["text", "image", "video", "audio", "document", "sticker",
       "location", "interactive", "button", "contacts"] : List String) ∧
     emptyDB.messages.any (fun m => m.wa_message_id == exMsgReaction.id) = false) ∧
    (∃ row : MessageRecord,
      (saveIncomingMessage exMsgReaction none "t6" emptyDB).1 = Except.ok row ∧
      (saveIncomingMessage exMsgReaction none "t6" emptyDB).2.messages =
        emptyDB.messages ++ [row] ∧
      row.type = exMsgReaction.type ∧
      row.content = some (stringifyIncomingMessage exMsgReaction)) :=
  ⟨⟨by decide, rfl⟩,
    saveIncomingMessage_unknown_kind exMsgReaction none "t6" emptyDB (by decide) rfl⟩

theorem applyStatuses_cons (e : MessageStatus) (rest : List MessageStatus) (now : String)
    (st : DBState) :
    applyStatuses (e :: rest) now st = applyStatuses rest now (updateMessageStatus e now st) :=
  rfl

theorem applyStatuses_append_shape (events : List MessageStatus) (now : String) (st : DBState) :
    ∃ newRows : List MessageStatusRecord,
      (applyStatuses events now st).message_statuses = st.message_statuses ++ newRows ∧
      newRows.map (fun r => (r.wa_message_id, r.status)) =
        events.map (fun e => (e.id, e.status)) := by
  induction events generalizing st with
  | nil => exact ⟨[], by simp [applyStatuses], rfl⟩
  | cons e rest ih =>
    obtain ⟨rows, h1, h2⟩ := ih (updateMessageStatus e now st)
    refine ⟨statusRowOf e now st.nextStatusId :: rows, ?_, ?_⟩
    · rw [applyStatuses_cons, h1, updateMessageStatus_statuses]
      simp
    · simp only [List.map_cons, h2]
      rfl

theorem applyStatuses_message_ids (events : List MessageStatus) (now : String) (st : DBState) :
    (applyStatuses events now st).messages.map (fun m => m.wa_message_id) =
      st.messages.map (fun m => m.wa_message_id) := by
  induction events generalizing st with
  | nil => rfl
  | cons e rest ih =>
    rw [applyStatuses_cons, ih, updateMessageStatus_messages, List.map_map]
    congr 1
    funext m
    exact setStatus_wa_message_id e.id e.status m

theorem applyStatuses_last_status (events : List MessageStatus) (mid : String)
    (now : String) :
    ∀ st : DBState, (∀ e ∈ events, e.id = mid) →
      ∀ lastEv : MessageStatus, events.getLast? = some lastEv →
        ∀ m ∈ (applyStatuses events now st).messages,
          m.wa_message_id = mid → m.status = lastEv.status := by
  induction events with
  | nil =>
    intro st _ lastEv hlast
    cases hlast
  | cons e rest ih =>
    intro st hid lastEv hlast
    cases rest with
    | nil =>
      have hle : lastEv = e := by
        simp only [List.getLast?_singleton, Option.some_inj] at hlast
        exact hlast.symm
      intro m hm hmid
      rw [hle]
      rw [applyStatuses_cons] at hm
      have hm' : m ∈ (updateMessageStatus e now st).messages := hm
      rw [updateMessageStatus_messages] at hm'
      obtain ⟨m0, hm0, rfl⟩ := List.mem_map.mp hm'
      rw [setStatus_wa_message_id] at hmid
      have heid : e.id = mid := hid e (List.mem_cons_self e [])
      unfold setStatus
      split
      · rfl
      · simp_all
    | cons r rs =>
      rw [applyStatuses_cons]
      exact ih (updateMessageStatus e now st)
        (fun x hx => hid x (List.mem_cons_of_mem e hx)) lastEv
        (by rw [← hlast]; exact List.getLast?_cons_cons.symm)

/-- C8: applying K status events in order for one external message id
appends exactly K status-history rows (keyed by that id, carrying the
event statuses, with all pre-existing rows preserved — append-only),
never inserts or deletes message rows, and leaves every message row for
that id with its status overwritten to the K-th event's status value
(no forward-only ordering validation). -/
theorem applyStatuses_history_and_final_status (events : List MessageStatus) (mid : String)
    (now : String) (st : DBState) (lastEv : MessageStatus)
    (hid : ∀ e ∈ events, e.id = mid) (hlast : events.getLast? = some lastEv) :
    (∃ newRows : List MessageStatusRecord,
      (applyStatuses events now st).message_statuses = st.message_statuses ++ newRows ∧
      newRows.map (fun r => (r.wa_message_id, r.status)) =
        events.map (fun e => (e.id, e.status))) ∧
    (applyStatuses events now st).messages.map (fun m => m.wa_message_id) =
      st.messages.map (fun m => m.wa_message_id) ∧
    (∀ m ∈ (applyStatuses events now st).messages,
      m.wa_message_id = mid → m.status = lastEv.status) :=
  ⟨applyStatuses_append_shape events now st, applyStatuses_message_ids events now st,
    applyStatuses_last_status events mid now st hid lastEv hlast⟩

/-- C8 witness: the delivered-then-read pair of Scenario C applied to the
store holding Scenario A's message. -/
theorem applyStatuses_history_and_final_status_witness :
    ((∀ e ∈ [exStatusDelivered, exStatusRead], e.id = "wamid.A") ∧
     [exStatusDelivered, exStatusRead].getLast? = some exStatusRead) ∧
    ((∃ newRows : List MessageStatusRecord,
      (applyStatuses [exStatusDelivered, exStatusRead] "t7" exDB1).message_statuses =
        exDB1.message_statuses ++ newRows ∧
      newRows.map (fun r => (r.wa_message_id, r.status)) =
        [exStatusDelivered, exStatusRead].map (fun e => (e.id, e.status))) ∧
    (applyStatuses [exStatusDelivered, exStatusRead] "t7" exDB1).messages.map
        (fun m => m.wa_message_id) =
      exDB1.messages.map (fun m => m.wa_message_id) ∧
    (∀ m ∈ (applyStatuses [exStatusDelivered, exStatusRead] "t7" exDB1).messages,
      m.wa_message_id = "wamid.A" → m.status = exStatusRead.status)) :=
  ⟨⟨by decide, by decide⟩,
    applyStatuses_history_and_final_status [exStatusDelivered, exStatusRead] "wamid.A" "t7"
      exDB1 exStatusRead (by decide) (by decide)⟩

/-- C4: two status events carrying the same external conversation id,
each resolving to a known message (hence an owning contact), yield
exactly one conversation row for that id: the second `INSERT OR IGNORE`
observation is ignored. -/
theorem updateMessageStatus_conversation_dedup (ev1 ev2 : MessageStatus)
    (conv1 conv2 : Conversation) (now1 now2 : String) (st : DBState)
    (h1 : ev1.conversation = some conv1) (h2 : ev2.conversation = some conv2)
    (hsame : conv2.id = conv1.id)
    (hk1 : (conversationContact st ev1.id).isSome = true)
    (hk2 : (conversationContact st ev2.id).isSome = true)
    (h0 : st.conversations.countP (fun v => v.wa_conversation_id == conv1.id) = 0) :
    (updateMessageStatus ev2 now2 (updateMessageStatus ev1 now1 st)).conversations.countP
      (fun v => v.wa_conversation_id == conv1.id) = 1 := by
  obtain ⟨c1, hc1⟩ := Option.isSome_iff_exists.mp hk1
  obtain ⟨c2, hc2⟩ := Option.isSome_iff_exists.mp hk2
  have hany0 : st.conversations.any (fun v => v.wa_conversation_id == conv1.id) = false := by
    rw [List.any_eq_false]
    intro x hx
    exact List.countP_eq_zero.mp h0 x hx
  have hA : (updateMessageStatus ev1 now1 st).conversations =
      st.conversations ++ [conversationRowOf conv1 c1 now1 st.nextConversationId] := by
    rw [updateMessageStatus_conversations]
    simp only [h1, hc1, hany0, Bool.false_eq_true, if_false]
  have hcount1 : (updateMessageStatus ev1 now1 st).conversations.countP
      (fun v => v.wa_conversation_id == conv1.id) = 1 := by
    rw [hA, List.countP_append, h0]
    simp [conversationRowOf]
  have hany1 : (updateMessageStatus ev1 now1 st).conversations.any
      (fun v => v.wa_conversation_id == conv2.id) = true := by
    rw [List.any_eq_true]
    refine ⟨_, by rw [hA]; exact List.mem_append_right _ (List.mem_singleton.mpr rfl), ?_⟩
    simp [conversationRowOf, hsame]
  have hB : conversationContact (updateMessageStatus ev1 now1 st) ev2.id = some c2 := by
    rw [conversationContact_updateMessageStatus]
    exact hc2
  rw [updateMessageStatus_conversations]
  simp only [h2, hB, hany1, if_true]
  exact hcount1

/-- C4 witness: Scenario C's delivered and read events both carry
conversation id `conv1` and both resolve to Scenario A's message. -/
theorem updateMessageStatus_conversation_dedup_witness :
    (exStatusDelivered.conversation =
       some { id := "conv1", origin := { type := "user_initiated" },
              expiration_timestamp := none } ∧
     exStatusRead.conversation =
       some { id := "conv1", origin := { type := "user_initiated" },
              expiration_timestamp := none } ∧
     (conversationContact exDB1 exStatusDelivered.id).isSome = true ∧
     (conversationContact exDB1 exStatusRead.id).isSome = true ∧
     exDB1.conversations.countP (fun v => v.wa_conversation_id == "conv1") = 0) ∧
    (updateMessageStatus exStatusRead "t8"
        (updateMessageStatus exStatusDelivered "t7" exDB1)).conversations.countP
      (fun v => v.wa_conversation_id == "conv1") = 1 :=
  ⟨⟨by decide, by decide, by decide, by decide, by decide⟩,
    updateMessageStatus_conversation_dedup exStatusDelivered exStatusRead
      { id := "conv1", origin := { type := "user_initiated" }, expiration_timestamp := none }
      { id := "conv1", origin := { type := "user_initiated" }, expiration_timestamp := none }
      "t7" "t8" exDB1 (by decide) (by decide) rfl (by decide) (by decide) (by decide)⟩

/-- C6: a POST whose top-level object tag is wrong is rejected with 400
before any processing (the store state is returned untouched); a payload
with the correct tag is acknowledged with 200 no matter what the store
operations do — the statement quantifies over every `DbOps`
implementation, hence over arbitrary persistence failures. -/
theorem webhookPost_ack {St : Type} (db : DbOps St) (payload : WebhookPayload) (st : St) :
    (payload.object ≠ "whatsapp_business_account" → webhookPost db payload st = (400, st)) ∧
    (payload.object = "whatsapp_business_account" → (webhookPost db payload st).1 = 200) := by
  constructor
  · intro h
    unfold webhookPost
    rw [if_pos h]
  · intro h
    unfold webhookPost
    rw [if_neg (by simp [h])]

/-- C6 witness: against a store whose every operation fails, the
wrong-tag payload yields 400 with no processing and the well-formed
payload still yields 200. -/
theorem webhookPost_ack_witness :
    (exPayloadBad.object ≠ "whatsapp_business_account" ∧
      webhookPost failingOps exPayloadBad () = (400, ())) ∧
    (exPayloadGood.object = "whatsapp_business_account" ∧
      (webhookPost failingOps exPayloadGood ()).1 = 200) :=
  ⟨⟨by decide, (webhookPost_ack failingOps exPayloadBad ()).1 (by decide)⟩,
    ⟨rfl, (webhookPost_ack failingOps exPayloadGood ()).2 rfl⟩⟩

theorem foldl_flatten {α β : Type} (f : β → α → β) (init : β) (l : List (List α)) :
    l.flatten.foldl f init = l.foldl (fun s xs => xs.foldl f s) init := by
  induction l generalizing init with
  | nil => rfl
  | cons xs rest ih =>
    rw [List.flatten_cons, List.foldl_append, List.foldl_cons, ih]

theorem processMessagesChange_eq_foldl {St : Type} (db : DbOps St) (value : WebhookValue)
    (st : St) :
    processMessagesChange db value st = (itemsOfValue value).foldl (stepItem db) st := by
  unfold processMessagesChange itemsOfValue
  rw [List.foldl_append, List.foldl_map, List.foldl_map]
  rfl

/-- C7: with the correct object tag, the webhook handler is exactly a
sequential left fold of the per-item step (which swallows that item's
persistence failure) over every message and status of every change of
every entry, in arrival order — one item's failure never aborts the
remaining items, entries or changes. -/
theorem webhookPost_processes_all_items {St : Type} (db : DbOps St)
    (payload : WebhookPayload) (st : St)
    (h : payload.object = "whatsapp_business_account") :
    webhookPost db payload st = (200, (itemsOfPayload payload).foldl (stepItem db) st) := by
  unfold webhookPost itemsOfPayload
  rw [if_neg (by simp [h]), foldl_flatten, List.foldl_map]
  congr 1
  congr 1
  funext s entry
  rw [foldl_flatten, List.foldl_map]
  congr 1
  funext t change
  by_cases hc : (change.field == "messages") = true
  · simp only [hc, if_true, processMessagesChange_eq_foldl]
  · simp only [hc, if_false]
    simp at hc
    simp [hc]

/-- C7 witness: the two-message, one-status notification processed
against the always-failing store still folds over all three items. -/
theorem webhookPost_processes_all_items_witness :
    exPayloadGood.object = "whatsapp_business_account" ∧
    webhookPost failingOps exPayloadGood () =
      (200, (itemsOfPayload exPayloadGood).foldl (stepItem failingOps) ()) :=
  ⟨rfl, webhookPost_processes_all_items failingOps exPayloadGood () rfl⟩

/-- C3 counterexample: under the interleaving A-SELECT, B-SELECT,
A-INSERT, B-INSERT of two concurrent `findOrCreateContact` calls for the
same address on an empty store, the calls do not all converge to the one
contact row: the loser's INSERT hits the `wa_id` UNIQUE constraint and
the call fails — `findOrCreateContact` is an application-level
check-then-insert sequence, not an atomic storage-level upsert.  (The
table still ends with exactly one row, but only because the constraint
turns the race into an error.) -/
theorem upsert_race_loser_errors :
    ((runSchedule "1555" none none "t0" [true, false, true, false]
        (UpsertPhase.ready, UpsertPhase.ready, emptyDB)).2.1 =
      UpsertPhase.finished (Except.error DbError.uniqueViolation)) ∧
    ((runSchedule "1555" none none "t0" [true, false, true, false]
        (UpsertPhase.ready, UpsertPhase.ready, emptyDB)).2.2.contacts.length = 1) :=
  ⟨rfl, rfl⟩

theorem countP_singleton {α : Type} (p : α → Bool) (a : α) :
    List.countP p [a] = if p a then 1 else 0 := by
  simp [List.countP_cons]

theorem countP_map_wa_id (f : ContactRecord → ContactRecord)
    (hf : ∀ c, (f c).wa_id = c.wa_id) (l : List ContactRecord) (w : String) :
    (l.map f).countP (fun c => c.wa_id == w) = l.countP (fun c => c.wa_id == w) := by
  induction l with
  | nil => rfl
  | cons c rest ih =>
    simp only [List.map_cons, List.countP_cons, hf, ih]

theorem stepUpsert_no_duplicate (waId : String) (name : Option String) (now : String)
    (p : UpsertPhase) (st : DBState) (w : String)
    (h : st.contacts.countP (fun c => c.wa_id == w) ≤ 1) :
    ((stepUpsert waId name now (p, st)).2.contacts.countP (fun c => c.wa_id == w)) ≤ 1 := by
  cases p with
  | ready => exact h
  | finished r => exact h
  | selected found =>
    cases found with
    | some existing =>
      simp only [stepUpsert]
      rw [countP_map_wa_id]
      · exact h
      · intro c
        split <;> rfl
    | none =>
      simp only [stepUpsert]
      split
      · exact h
      case isFalse hany =>
        dsimp only
        rw [List.countP_append, countP_singleton]
        dsimp only
        by_cases hw : (waId == w) = true
        · have hzero : st.contacts.countP (fun c => c.wa_id == w) = 0 := by
            rw [List.countP_eq_zero]
            intro c hc
            have hcw := (List.any_eq_false.mp (Bool.of_not_eq_true hany)) c hc
            have hww : waId = w := by simpa using hw
            rw [← hww]
            exact hcw
          rw [hzero, hw]
          simp
        · have hwf : (waId == w) = false := by
            cases hbe : (waId == w) with
            | true => exact absurd hbe hw
            | false => rfl
          rw [hwf]
          simpa using h

/-- C3 (amended): under every interleaving of two concurrent
`findOrCreateContact` calls for the same address, the contacts table
never acquires a duplicate row — for every address it ends with at most
one row, because the `wa_id UNIQUE` constraint (a storage-level
primitive) rejects the losing INSERT.  What the claim wrongly asserts is
atomic convergence: the upsert is a check-then-insert sequence, so the
losing call returns a uniqueness error instead of the stored row (see
the counterexample). -/
theorem upsert_interleaving_no_duplicate (waId : String) (nameA nameB : Option String)
    (now : String) (schedule : List Bool) (pA pB : UpsertPhase) (st : DBState)
    (h : ∀ w, st.contacts.countP (fun c => c.wa_id == w) ≤ 1) :
    ∀ w, ((runSchedule waId nameA nameB now schedule (pA, pB, st)).2.2.contacts.countP
      (fun c => c.wa_id == w)) ≤ 1 := by
  induction schedule generalizing pA pB st with
  | nil => exact h
  | cons b rest ih =>
    cases b with
    | true =>
      exact ih (stepUpsert waId nameA now (pA, st)).1 pB (stepUpsert waId nameA now (pA, st)).2
        (fun w => stepUpsert_no_duplicate waId nameA now pA st w (h w))
    | false =>
      exact ih pA (stepUpsert waId nameB now (pB, st)).1 (stepUpsert waId nameB now (pB, st)).2
        (fun w => stepUpsert_no_duplicate waId nameB now pB st w (h w))

/-- C3 witness: the racing schedule of the counterexample, starting from
the empty store, keeps at most one contact row per address. -/
theorem upsert_interleaving_no_duplicate_witness :
    (∀ w, emptyDB.contacts.countP (fun c => c.wa_id == w) ≤ 1) ∧
    (∀ w, ((runSchedule "1555" (some "Ana") none "t0" [true, false, true, false]
      (UpsertPhase.ready, UpsertPhase.ready, emptyDB)).2.2.contacts.countP
        (fun c => c.wa_id == w)) ≤ 1) :=
  ⟨fun w => by simp [emptyDB],
    upsert_interleaving_no_duplicate "1555" (some "Ana") none "t0" [true, false, true, false]
      UpsertPhase.ready UpsertPhase.ready emptyDB (fun w => by simp [emptyDB])⟩

end WhatsappApi
